import Mathlib

/-!
Shallow embedding of the `sage_auth` crate: a client library for the legacy
Mojang authentication API.  The embedding models the five request builders
(authenticate, refresh, validate, invalidate, signout), the serialization of
their parameter records to wire JSON, the URL configuration, and the error
classification of non-success HTTP responses.

External collaborators (the HTTP transport, JSON parsing of response bodies,
URL parsing and random UUID generation) are modelled as explicit inputs:
a `request` function receives the freshly generated UUID and the transport's
reply (already split into its status code and the parse results of its body)
and returns the final builder state, the list of HTTP calls performed, and
the result value, so that "no network call is made" is an observable fact of
the model.
-/

/-! ## UUIDs and their wire rendering -/

/-- A 128-bit UUID, modelled by its value as a natural number
(the rendering functions below only consume the low 128 bits). -/
structure Uuid where
  val : Nat
deriving DecidableEq

/-- Hexadecimal digit character for `n % 16`, lowercase, as produced by the
uuid crate's formatting. -/
def hexDigit (n : Nat) : Char :=
  if n % 16 < 10 then Char.ofNat (48 + n % 16) else Char.ofNat (87 + n % 16)

/-- Big-endian fixed-width hexadecimal rendering: `hexChars w n` is the list
of the `w` lowest hex digits of `n`, most significant first. -/
def hexChars : Nat → Nat → List Char
  | 0, _ => []
  | w + 1, n => hexChars w (n / 16) ++ [hexDigit (n % 16)]

/-- The unhyphenated "simple" rendering of a UUID: 32 hex digits
(`uuid::Uuid::to_simple`). -/
def Uuid.toSimple (u : Uuid) : String :=
  String.mk (hexChars 32 u.val)

/-- The standard hyphenated rendering of a UUID (`uuid::Uuid`'s `Display` and
`Serialize` form): the 32 big-endian hex digits of the 128-bit value in groups
of 8-4-4-4-12 separated by hyphens. -/
def Uuid.toHyphenated (u : Uuid) : String :=
  String.mk
    (hexChars 8 (u.val / 16 ^ 24) ++ '-' ::
      (hexChars 4 (u.val / 16 ^ 20 % 16 ^ 4) ++ '-' ::
        (hexChars 4 (u.val / 16 ^ 16 % 16 ^ 4) ++ '-' ::
          (hexChars 4 (u.val / 16 ^ 12 % 16 ^ 4) ++ '-' ::
            hexChars 12 (u.val % 16 ^ 12)))))

/-- Is `c` a lowercase hexadecimal digit character? -/
def isHexChar (c : Char) : Bool :=
  (48 ≤ c.toNat && c.toNat ≤ 57) || (97 ≤ c.toNat && c.toNat ≤ 102)

/-- Consume exactly `n` hex digit characters from the front of a list,
returning the remainder, or `none` if a non-hex character is hit. -/
def dropHex : Nat → List Char → Option (List Char)
  | 0, cs => some cs
  | _ + 1, [] => none
  | n + 1, c :: cs => if isHexChar c then dropHex n cs else none

/-- Recognizer for the standard hyphenated UUID string form:
8, 4, 4, 4 and 12 hex digits separated by single hyphens (36 characters). -/
def isHyphenatedUuidList (cs : List Char) : Bool :=
  match dropHex 8 cs with
  | some ('-' :: r1) =>
    match dropHex 4 r1 with
    | some ('-' :: r2) =>
      match dropHex 4 r2 with
      | some ('-' :: r3) =>
        match dropHex 4 r3 with
        | some ('-' :: r4) =>
          match dropHex 12 r4 with
          | some [] => true
          | _ => false
        | _ => false
      | _ => false
    | _ => false
  | _ => false

/-- String version of `isHyphenatedUuidList`. -/
def isHyphenatedUuidString (s : String) : Bool :=
  isHyphenatedUuidList s.toList

theorem hexChars_length (w n : Nat) : (hexChars w n).length = w := by
  induction w generalizing n with
  | zero => rfl
  | succ w ih => simp [hexChars, ih]

theorem hexDigit_mod (n : Nat) : hexDigit n = hexDigit (n % 16) := by
  unfold hexDigit
  rw [Nat.mod_mod_of_dvd n (dvd_refl 16)]

theorem isHexChar_hexDigit (n : Nat) : isHexChar (hexDigit n) = true := by
  have hb : ∀ m, m < 16 → isHexChar (hexDigit m) = true := by decide
  rw [hexDigit_mod]
  exact hb (n % 16) (Nat.mod_lt _ (by omega))

theorem hexChars_all_hex (w n : Nat) :
    ∀ c ∈ hexChars w n, isHexChar c = true := by
  induction w generalizing n with
  | zero => intro c hc; simp [hexChars] at hc
  | succ w ih =>
    intro c hc
    simp only [hexChars, List.mem_append, List.mem_singleton] at hc
    rcases hc with hc | hc
    · exact ih _ c hc
    · subst hc; exact isHexChar_hexDigit _

theorem dropHex_append (xs rest : List Char)
    (hhex : ∀ c ∈ xs, isHexChar c = true) :
    dropHex xs.length (xs ++ rest) = some rest := by
  induction xs with
  | nil => rfl
  | cons c xs ih =>
    have hc : isHexChar c = true := hhex c (List.mem_cons_self c xs)
    simp only [List.length_cons, List.cons_append, dropHex, hc, if_pos]
    exact ih fun d hd => hhex d (List.mem_cons_of_mem c hd)

theorem dropHex_hexChars (w n : Nat) (rest : List Char) :
    dropHex w (hexChars w n ++ rest) = some rest := by
  have h := dropHex_append (hexChars w n) rest (hexChars_all_hex w n)
  rwa [hexChars_length] at h

theorem isHyphenatedUuidList_hexChars (n1 n2 n3 n4 n5 : Nat) :
    isHyphenatedUuidList
      (hexChars 8 n1 ++ '-' :: (hexChars 4 n2 ++ '-' :: (hexChars 4 n3 ++
        '-' :: (hexChars 4 n4 ++ '-' :: hexChars 12 n5)))) = true := by
  have h5 : dropHex 12 (hexChars 12 n5) = some [] := by
    have := dropHex_hexChars 12 n5 []
    rwa [List.append_nil] at this
  unfold isHyphenatedUuidList
  simp only [dropHex_hexChars, h5]

/-- Every UUID's hyphenated rendering is a well-formed hyphenated UUID
string. -/
theorem toHyphenated_valid (u : Uuid) :
    isHyphenatedUuidString u.toHyphenated = true :=
  isHyphenatedUuidList_hexChars (u.val / 16 ^ 24) (u.val / 16 ^ 20 % 16 ^ 4)
    (u.val / 16 ^ 16 % 16 ^ 4) (u.val / 16 ^ 12 % 16 ^ 4) (u.val % 16 ^ 12)

/-- The hyphenated rendering is 36 characters; the simple one is 32: the two
wire forms of a UUID are never equal. -/
theorem toHyphenated_ne_toSimple (u : Uuid) :
    u.toHyphenated ≠ u.toSimple := by
  intro h
  have hlen := congrArg String.length h
  unfold Uuid.toHyphenated Uuid.toSimple at hlen
  simp only [String.length, String.mk, List.length_append, List.length_cons,
    hexChars_length] at hlen
  omega

/-! ## Wire JSON model -/

/-- JSON values, as produced by serde serialization of the request parameter
records. -/
inductive Json where
  | null
  | str (s : String)
  | bool (b : Bool)
  | num (n : Int)
  | obj (fields : List (String × Json))

/-- Look up a field of a JSON object by name. -/
def Json.lookup (j : Json) (key : String) : Option Json :=
  match j with
  | .obj fields => fields.lookup key
  | _ => none

/-- serde serialization of `Option<&str>`: `None` is `null`. -/
def serOptStr : Option String → Json
  | none => Json.null
  | some s => Json.str s

/-- serde serialization of `uuid::Uuid`: the standard hyphenated string. -/
def serUuid (u : Uuid) : Json := Json.str u.toHyphenated

/-- serde serialization of `Option<Uuid>`: `None` is `null`. -/
def serOptUuid : Option Uuid → Json
  | none => Json.null
  | some u => serUuid u

/-- Embeds `types::serialize_uuid_simple`: serialize a Uuid to a string without
hyphens.  Defined in the crate but referenced by no request parameter
record. -/
def serialize_uuid_simple (u : Uuid) : Json := Json.str u.toSimple

/-! ## Errors (`error.rs`) and the error envelope (`types.rs`) -/

/-- Opaque model of `reqwest::Error`: an error of the external HTTP client,
carrying only a description. -/
structure ReqwestError where
  msg : String
deriving DecidableEq

/-- Opaque model of `url::ParseError`. -/
structure UrlParseErr where
  msg : String
deriving DecidableEq

/-- Embeds `types::ErrorMessage`: the `{error, errorMessage, cause}` envelope the
server uses for all non-success responses. -/
structure ErrorMessage where
  error : String
  error_message : String
  cause : Option String
deriving DecidableEq

/-- Embeds `error::ApiError`: classified API errors from the Mojang server.  Each
known variant carries the envelope's `errorMessage`; `Unknown` carries the
raw `error` and `errorMessage` strings. -/
inductive ApiError where
  | MethodNotAllowed (message : String)
  | NotFound (message : String)
  | ForbiddenOperationException (message : String)
  | IllegalArgumentException (message : String)
  | UnsupportedMediaType (message : String)
  | Unknown (error : String) (message : String)
deriving DecidableEq

/-- Embeds `error::Error`: common errors of the crate. -/
inductive Error where
  | Reqwest (e : ReqwestError)
  | UrlParseError (e : UrlParseErr)
  | MissingField (field : String)
  | API (e : ApiError)
deriving DecidableEq

/-- Embeds `impl From<ReqwestError> for Error` (error.rs): wrap in
`Error::Reqwest`. -/
def reqwestToError (e : ReqwestError) : Error := Error.Reqwest e

/-- Embeds `impl From<ParseError> for Error` (error.rs): wrap in
`Error::UrlParseError`. -/
def parseErrorToError (e : UrlParseErr) : Error := Error.UrlParseError e

/-- Is this error the `UrlParseError` variant? -/
def Error.isUrlParseError : Error → Bool
  | .UrlParseError _ => true
  | _ => false

/-- Embeds `Error::from_response` (error.rs): given the result of parsing a
non-success response body as the `ErrorMessage` envelope (parsing is done by
the external JSON machinery, so the parse result is the input here), either
propagate the parse failure via `From<ReqwestError>`, or classify the
envelope's `error` string case-sensitively against the table of known
errors, falling back to `ApiError::Unknown` with the raw strings. -/
def Error.from_response (msg : Except ReqwestError ErrorMessage) : Error :=
  match msg with
  | .error e => reqwestToError e
  | .ok msg =>
    if msg.error = "ForbiddenOperationException" then
      Error.API (ApiError.ForbiddenOperationException msg.error_message)
    else if msg.error = "IllegalArgumentException" then
      Error.API (ApiError.IllegalArgumentException msg.error_message)
    else if msg.error = "Method Not Allowed" then
      Error.API (ApiError.MethodNotAllowed msg.error_message)
    else if msg.error = "Not Found" then
      Error.API (ApiError.NotFound msg.error_message)
    else if msg.error = "Unsupported Media Type" then
      Error.API (ApiError.UnsupportedMediaType msg.error_message)
    else
      Error.API (ApiError.Unknown msg.error msg.error_message)

/-! ## URLs (`consts.rs` and the external url crate) -/

/-- Model of a parsed `url::Url`: scheme, host and path.  Only URLs with a
host occur in this library (the default server and caller-supplied bases). -/
structure Url where
  scheme : String
  host : String
  path : String
deriving DecidableEq

/-- Render a URL as a string. -/
def Url.render (u : Url) : String := u.scheme ++ "://" ++ u.host ++ u.path

/-- Embeds `consts::DEFAULT_SERVER`: `Url::parse("https://authserver.mojang.com")`;
the url crate normalizes the empty path of a special-scheme URL to "/". -/
def DEFAULT_SERVER : Url :=
  { scheme := "https", host := "authserver.mojang.com", path := "/" }

/-- Modelled from the external url crate: resolving a reference against a
base URL that has a host.  An absolute-path reference (the only kind this
library uses: every endpoint starts with "/") replaces the base's path; other
references are resolved against the root here, an approximation that no
theorem below depends on. -/
def Url.joinResolve (u : Url) (input : String) : Url :=
  match input.toList with
  | '/' :: _ => { u with path := input }
  | _ => { u with path := "/" ++ input }

/-- Embeds `Url::join` of the external url crate: for base URLs with a host the
join cannot fail, so the `Result` is always `Ok`; the `Except` shape is kept
because the callers apply the `?` operator (converting a `ParseError` via
`From<ParseError> for Error`). -/
def Url.join (u : Url) (input : String) : Except UrlParseErr Url :=
  Except.ok (u.joinResolve input)

/-! ## HTTP transport model -/

/-- The transport's reply to a dispatched POST, with the body parsing
delegated to the external JSON machinery: `status` is the HTTP status code,
`okBody` the result of parsing the body as the endpoint's typed success
response, and `errBody` the result of parsing it as the `ErrorMessage`
envelope. -/
structure HttpReply (α : Type) where
  status : Nat
  okBody : Except ReqwestError α
  errBody : Except ReqwestError ErrorMessage

/-- A record of one HTTP POST performed: the resolved URL and the serialized
JSON payload sent. -/
structure HttpCall where
  url : Url
  payload : Json

/-! ## Authenticate (`auth.rs`) -/

/-- Embeds `auth::AgentInfo`. -/
structure AgentInfo where
  name : String
  version : Int
deriving DecidableEq

/-- Embeds `auth::AuthenticateParams`. -/
structure AuthenticateParams where
  username : Option String
  password : Option String
  client_token : Option Uuid
  request_user : Bool
  agent : AgentInfo
deriving DecidableEq

/-- serde serialization of `AgentInfo` (camelCase field renaming). -/
def AgentInfo.serialize (a : AgentInfo) : Json :=
  Json.obj [("name", Json.str a.name), ("version", Json.num a.version)]

/-- serde serialization of `AuthenticateParams` with
`#[serde(rename_all = "camelCase")]`. -/
def AuthenticateParams.serialize (p : AuthenticateParams) : Json :=
  Json.obj
    [("username", serOptStr p.username),
     ("password", serOptStr p.password),
     ("clientToken", serOptUuid p.client_token),
     ("requestUser", Json.bool p.request_user),
     ("agent", p.agent.serialize)]

/-- Embeds `types::Profile`. -/
structure Profile where
  agent : Option String
  id : Uuid
  name : String
  legacy : Bool
deriving DecidableEq

/-- Embeds `types::User`. -/
structure User where
  id : Uuid
  username : String
deriving DecidableEq

/-- Embeds `auth::AuthenticateResponse`. -/
structure AuthenticateResponse where
  access_token : String
  client_token : Uuid
  available_profiles : List Profile
  selected_profile : Option Profile
  user : Option User
deriving DecidableEq

/-- Embeds `auth::AuthenticateBuilder`. -/
structure AuthenticateBuilder where
  params : AuthenticateParams
  server : Url
  endpoint : String
deriving DecidableEq

/-- Embeds `AuthenticateBuilder::new`. -/
def AuthenticateBuilder.new : AuthenticateBuilder :=
  { params :=
      { username := none
        password := none
        client_token := none
        request_user := false
        agent := { name := "Minecraft", version := 1 } }
    server := DEFAULT_SERVER
    endpoint := "/authenticate" }

/-- Embeds `AuthenticateBuilder::username`. -/
def AuthenticateBuilder.username (b : AuthenticateBuilder) (u : String) :
    AuthenticateBuilder :=
  { b with params := { b.params with username := some u } }

/-- Embeds `AuthenticateBuilder::password`. -/
def AuthenticateBuilder.password (b : AuthenticateBuilder) (p : String) :
    AuthenticateBuilder :=
  { b with params := { b.params with password := some p } }

/-- Embeds `AuthenticateBuilder::client_token`. -/
def AuthenticateBuilder.client_token (b : AuthenticateBuilder) (t : Uuid) :
    AuthenticateBuilder :=
  { b with params := { b.params with client_token := some t } }

/-- Embeds `AuthenticateBuilder::request_user`. -/
def AuthenticateBuilder.request_user (b : AuthenticateBuilder) :
    AuthenticateBuilder :=
  { b with params := { b.params with request_user := true } }

/-- Embeds `AuthenticateBuilder::agent_name`. -/
def AuthenticateBuilder.agent_name (b : AuthenticateBuilder) (n : String) :
    AuthenticateBuilder :=
  { b with params := { b.params with agent := { b.params.agent with name := n } } }

/-- Embeds `AuthenticateBuilder::agent_version`. -/
def AuthenticateBuilder.agent_version (b : AuthenticateBuilder) (v : Int) :
    AuthenticateBuilder :=
  { b with params := { b.params with agent := { b.params.agent with version := v } } }

/-- Embeds `AuthenticateBuilder::server` (named `set_server` here because `server`
is the field's projection): `self.server = server.into_url()?`.  The input
is the parse result of the external `IntoUrl` conversion, whose error type
is `reqwest::Error`; on failure the `?` converts it via
`From<ReqwestError> for Error` and the builder is left unchanged. -/
def AuthenticateBuilder.set_server (b : AuthenticateBuilder)
    (parsed : Except ReqwestError Url) : AuthenticateBuilder × Except Error Unit :=
  match parsed with
  | .error e => (b, Except.error (reqwestToError e))
  | .ok u => ({ b with server := u }, Except.ok ())

/-- Embeds `AuthenticateBuilder::endpoint` (named `set_endpoint` here because
`endpoint` is the field's projection). -/
def AuthenticateBuilder.set_endpoint (b : AuthenticateBuilder) (e : String) :
    AuthenticateBuilder :=
  { b with endpoint := e }

/-- Embeds `AuthenticateBuilder::request`: validate `username` then `password`,
auto-generate a client token when absent (`fresh` is the UUID the external
generator would produce), then POST the serialized parameters to
`server.join(endpoint)` and interpret the status: 200 parses the body as
`AuthenticateResponse`, anything else classifies the body via
`Error::from_response`.  Returns the builder's final state, the HTTP calls
performed, and the result. -/
def AuthenticateBuilder.request (b : AuthenticateBuilder) (fresh : Uuid)
    (send : Except ReqwestError (HttpReply AuthenticateResponse)) :
    AuthenticateBuilder × List HttpCall × Except Error AuthenticateResponse :=
  if b.params.username.isNone then
    (b, [], Except.error (Error.MissingField "username"))
  else if b.params.password.isNone then
    (b, [], Except.error (Error.MissingField "password"))
  else
    let b :=
      if b.params.client_token.isNone then
        { b with params := { b.params with client_token := some fresh } }
      else b
    match b.server.join b.endpoint with
    | .error e => (b, [], Except.error (parseErrorToError e))
    | .ok url =>
      let payload := b.params.serialize
      match send with
      | .error e => (b, [⟨url, payload⟩], Except.error (reqwestToError e))
      | .ok reply =>
        if reply.status = 200 then
          match reply.okBody with
          | .ok r => (b, [⟨url, payload⟩], Except.ok r)
          | .error e => (b, [⟨url, payload⟩], Except.error (reqwestToError e))
        else
          (b, [⟨url, payload⟩], Except.error (Error.from_response reply.errBody))

/-! ## Refresh (`refresh.rs`) -/

/-- Embeds `refresh::RefreshParams`. -/
structure RefreshParams where
  access_token : Option String
  client_token : Option Uuid
  request_user : Bool
deriving DecidableEq

/-- serde serialization of `RefreshParams` (camelCase). -/
def RefreshParams.serialize (p : RefreshParams) : Json :=
  Json.obj
    [("accessToken", serOptStr p.access_token),
     ("clientToken", serOptUuid p.client_token),
     ("requestUser", Json.bool p.request_user)]

/-- Embeds `refresh::RefreshResponse`. -/
structure RefreshResponse where
  access_token : String
  client_token : Uuid
  selected_profile : Option Profile
  user : Option User
deriving DecidableEq

/-- Embeds `refresh::RefreshBuilder`. -/
structure RefreshBuilder where
  params : RefreshParams
  server : Url
  endpoint : String
deriving DecidableEq

/-- Embeds `RefreshBuilder::new`. -/
def RefreshBuilder.new : RefreshBuilder :=
  { params := { access_token := none, client_token := none, request_user := false }
    server := DEFAULT_SERVER
    endpoint := "/refresh" }

/-- Embeds `RefreshBuilder::client_token`. -/
def RefreshBuilder.client_token (b : RefreshBuilder) (t : Uuid) : RefreshBuilder :=
  { b with params := { b.params with client_token := some t } }

/-- Embeds `RefreshBuilder::request_user`. -/
def RefreshBuilder.request_user (b : RefreshBuilder) : RefreshBuilder :=
  { b with params := { b.params with request_user := true } }

/-- Embeds `RefreshBuilder::access_token`. -/
def RefreshBuilder.access_token (b : RefreshBuilder) (t : String) : RefreshBuilder :=
  { b with params := { b.params with access_token := some t } }

/-- Embeds `RefreshBuilder::server` (see `AuthenticateBuilder.set_server`). -/
def RefreshBuilder.set_server (b : RefreshBuilder)
    (parsed : Except ReqwestError Url) : RefreshBuilder × Except Error Unit :=
  match parsed with
  | .error e => (b, Except.error (reqwestToError e))
  | .ok u => ({ b with server := u }, Except.ok ())

/-- Embeds `RefreshBuilder::endpoint`. -/
def RefreshBuilder.set_endpoint (b : RefreshBuilder) (e : String) : RefreshBuilder :=
  { b with endpoint := e }

/-- Embeds `RefreshBuilder::request`: validate `access_token` then `client_token`
(no token generation), POST, and interpret the status: 200 parses the body
as `RefreshResponse`, anything else is classified via
`Error::from_response`. -/
def RefreshBuilder.request (b : RefreshBuilder)
    (send : Except ReqwestError (HttpReply RefreshResponse)) :
    RefreshBuilder × List HttpCall × Except Error RefreshResponse :=
  if b.params.access_token.isNone then
    (b, [], Except.error (Error.MissingField "access_token"))
  else if b.params.client_token.isNone then
    (b, [], Except.error (Error.MissingField "client_token"))
  else
    match b.server.join b.endpoint with
    | .error e => (b, [], Except.error (parseErrorToError e))
    | .ok url =>
      let payload := b.params.serialize
      match send with
      | .error e => (b, [⟨url, payload⟩], Except.error (reqwestToError e))
      | .ok reply =>
        if reply.status = 200 then
          match reply.okBody with
          | .ok r => (b, [⟨url, payload⟩], Except.ok r)
          | .error e => (b, [⟨url, payload⟩], Except.error (reqwestToError e))
        else
          (b, [⟨url, payload⟩], Except.error (Error.from_response reply.errBody))

/-! ## Validate (`validate.rs`) -/

/-- Embeds `validate::ValidateParams`. -/
structure ValidateParams where
  access_token : Option String
  client_token : Option Uuid
deriving DecidableEq

/-- serde serialization of `ValidateParams` (camelCase). -/
def ValidateParams.serialize (p : ValidateParams) : Json :=
  Json.obj
    [("accessToken", serOptStr p.access_token),
     ("clientToken", serOptUuid p.client_token)]

/-- Embeds `validate::ValidateBuilder`. -/
structure ValidateBuilder where
  params : ValidateParams
  server : Url
  endpoint : String
deriving DecidableEq

/-- Embeds `ValidateBuilder::new`. -/
def ValidateBuilder.new : ValidateBuilder :=
  { params := { access_token := none, client_token := none }
    server := DEFAULT_SERVER
    endpoint := "/validate" }

/-- Embeds `ValidateBuilder::client_token`. -/
def ValidateBuilder.client_token (b : ValidateBuilder) (t : Uuid) : ValidateBuilder :=
  { b with params := { b.params with client_token := some t } }

/-- Embeds `ValidateBuilder::access_token`. -/
def ValidateBuilder.access_token (b : ValidateBuilder) (t : String) : ValidateBuilder :=
  { b with params := { b.params with access_token := some t } }

/-- Embeds `ValidateBuilder::server` (see `AuthenticateBuilder.set_server`). -/
def ValidateBuilder.set_server (b : ValidateBuilder)
    (parsed : Except ReqwestError Url) : ValidateBuilder × Except Error Unit :=
  match parsed with
  | .error e => (b, Except.error (reqwestToError e))
  | .ok u => ({ b with server := u }, Except.ok ())

/-- Embeds `ValidateBuilder::endpoint`. -/
def ValidateBuilder.set_endpoint (b : ValidateBuilder) (e : String) : ValidateBuilder :=
  { b with endpoint := e }

/-- Embeds `ValidateBuilder::request`: validate `access_token` then `client_token`,
POST, and interpret the status: 204 (`NO_CONTENT`) succeeds with `()` and
the body discarded, anything else is classified via `Error::from_response`. -/
def ValidateBuilder.request (b : ValidateBuilder)
    (send : Except ReqwestError (HttpReply Unit)) :
    ValidateBuilder × List HttpCall × Except Error Unit :=
  if b.params.access_token.isNone then
    (b, [], Except.error (Error.MissingField "access_token"))
  else if b.params.client_token.isNone then
    (b, [], Except.error (Error.MissingField "client_token"))
  else
    match b.server.join b.endpoint with
    | .error e => (b, [], Except.error (parseErrorToError e))
    | .ok url =>
      let payload := b.params.serialize
      match send with
      | .error e => (b, [⟨url, payload⟩], Except.error (reqwestToError e))
      | .ok reply =>
        if reply.status = 204 then (b, [⟨url, payload⟩], Except.ok ())
        else
          (b, [⟨url, payload⟩], Except.error (Error.from_response reply.errBody))

/-! ## Invalidate (`invalidate.rs`) -/

/-- Embeds `invalidate::InvalidateParams`. -/
structure InvalidateParams where
  access_token : Option String
  client_token : Option Uuid
deriving DecidableEq

/-- Embeds `impl Default for InvalidateParams`. -/
def InvalidateParams.default : InvalidateParams :=
  { access_token := none, client_token := none }

/-- serde serialization of `InvalidateParams` (camelCase). -/
def InvalidateParams.serialize (p : InvalidateParams) : Json :=
  Json.obj
    [("accessToken", serOptStr p.access_token),
     ("clientToken", serOptUuid p.client_token)]

/-- Embeds `invalidate::InvalidateBuilder`. -/
structure InvalidateBuilder where
  params : InvalidateParams
  server : Url
  endpoint : String
deriving DecidableEq

/-- Embeds `impl Default for InvalidateBuilder`. -/
def InvalidateBuilder.default : InvalidateBuilder :=
  { params := InvalidateParams.default
    server := DEFAULT_SERVER
    endpoint := "/invalidate" }

/-- Embeds `InvalidateBuilder::new`: `InvalidateBuilder::default()`. -/
def InvalidateBuilder.new : InvalidateBuilder := InvalidateBuilder.default

/-- Embeds `InvalidateBuilder::client_token`. -/
def InvalidateBuilder.client_token (b : InvalidateBuilder) (t : Uuid) :
    InvalidateBuilder :=
  { b with params := { b.params with client_token := some t } }

/-- Embeds `InvalidateBuilder::access_token`. -/
def InvalidateBuilder.access_token (b : InvalidateBuilder) (t : String) :
    InvalidateBuilder :=
  { b with params := { b.params with access_token := some t } }

/-- Embeds `InvalidateBuilder::server` (see `AuthenticateBuilder.set_server`). -/
def InvalidateBuilder.set_server (b : InvalidateBuilder)
    (parsed : Except ReqwestError Url) : InvalidateBuilder × Except Error Unit :=
  match parsed with
  | .error e => (b, Except.error (reqwestToError e))
  | .ok u => ({ b with server := u }, Except.ok ())

/-- Embeds `InvalidateBuilder::endpoint`. -/
def InvalidateBuilder.set_endpoint (b : InvalidateBuilder) (e : String) :
    InvalidateBuilder :=
  { b with endpoint := e }

/-- Embeds `InvalidateBuilder::request`: validate `access_token` then
`client_token`, POST, and interpret the status: 204 succeeds with `()`,
anything else is classified via `Error::from_response`. -/
def InvalidateBuilder.request (b : InvalidateBuilder)
    (send : Except ReqwestError (HttpReply Unit)) :
    InvalidateBuilder × List HttpCall × Except Error Unit :=
  if b.params.access_token.isNone then
    (b, [], Except.error (Error.MissingField "access_token"))
  else if b.params.client_token.isNone then
    (b, [], Except.error (Error.MissingField "client_token"))
  else
    match b.server.join b.endpoint with
    | .error e => (b, [], Except.error (parseErrorToError e))
    | .ok url =>
      let payload := b.params.serialize
      match send with
      | .error e => (b, [⟨url, payload⟩], Except.error (reqwestToError e))
      | .ok reply =>
        if reply.status = 204 then (b, [⟨url, payload⟩], Except.ok ())
        else
          (b, [⟨url, payload⟩], Except.error (Error.from_response reply.errBody))

/-! ## Signout (`signout.rs`) -/

/-- Embeds `signout::SignoutParams`. -/
structure SignoutParams where
  username : Option String
  password : Option String
deriving DecidableEq

/-- Embeds `impl Default for SignoutParams`. -/
def SignoutParams.default : SignoutParams :=
  { username := none, password := none }

/-- serde serialization of `SignoutParams` (camelCase). -/
def SignoutParams.serialize (p : SignoutParams) : Json :=
  Json.obj
    [("username", serOptStr p.username),
     ("password", serOptStr p.password)]

/-- Embeds `signout::SignoutBuilder`. -/
structure SignoutBuilder where
  params : SignoutParams
  server : Url
  endpoint : String
deriving DecidableEq

/-- Embeds `impl Default for SignoutBuilder`. -/
def SignoutBuilder.default : SignoutBuilder :=
  { params := SignoutParams.default
    server := DEFAULT_SERVER
    endpoint := "/signout" }

/-- Embeds `SignoutBuilder::new`: `SignoutBuilder::default()`. -/
def SignoutBuilder.new : SignoutBuilder := SignoutBuilder.default

/-- Embeds `SignoutBuilder::username`. -/
def SignoutBuilder.username (b : SignoutBuilder) (u : String) : SignoutBuilder :=
  { b with params := { b.params with username := some u } }

/-- Embeds `SignoutBuilder::password`. -/
def SignoutBuilder.password (b : SignoutBuilder) (p : String) : SignoutBuilder :=
  { b with params := { b.params with password := some p } }

/-- Embeds `SignoutBuilder::server` (see `AuthenticateBuilder.set_server`). -/
def SignoutBuilder.set_server (b : SignoutBuilder)
    (parsed : Except ReqwestError Url) : SignoutBuilder × Except Error Unit :=
  match parsed with
  | .error e => (b, Except.error (reqwestToError e))
  | .ok u => ({ b with server := u }, Except.ok ())

/-- Embeds `SignoutBuilder::endpoint`. -/
def SignoutBuilder.set_endpoint (b : SignoutBuilder) (e : String) : SignoutBuilder :=
  { b with endpoint := e }

/-- Embeds `SignoutBuilder::request`: validate `username` then `password`, POST,
and interpret the status: 204 succeeds with `()`, anything else is
classified via `Error::from_response`. -/
def SignoutBuilder.request (b : SignoutBuilder)
    (send : Except ReqwestError (HttpReply Unit)) :
    SignoutBuilder × List HttpCall × Except Error Unit :=
  if b.params.username.isNone then
    (b, [], Except.error (Error.MissingField "username"))
  else if b.params.password.isNone then
    (b, [], Except.error (Error.MissingField "password"))
  else
    match b.server.join b.endpoint with
    | .error e => (b, [], Except.error (parseErrorToError e))
    | .ok url =>
      let payload := b.params.serialize
      match send with
      | .error e => (b, [⟨url, payload⟩], Except.error (reqwestToError e))
      | .ok reply =>
        if reply.status = 204 then (b, [⟨url, payload⟩], Except.ok ())
        else
          (b, [⟨url, payload⟩], Except.error (Error.from_response reply.errBody))

/-! ## Claim theorems -/

/-- C1: for every non-success response whose body parses as the
`{error, errorMessage, cause}` envelope, the classifier matches the `error`
string case-sensitively: the five known strings map to their `ApiError`
variants carrying the envelope's `errorMessage` verbatim, and every other
string maps to `Unknown` carrying the raw `error` and `errorMessage`
unchanged. -/
theorem error_classifier_table (msg : ErrorMessage) :
    (msg.error = "ForbiddenOperationException" →
      Error.from_response (Except.ok msg) =
        Error.API (ApiError.ForbiddenOperationException msg.error_message)) ∧
    (msg.error = "IllegalArgumentException" →
      Error.from_response (Except.ok msg) =
        Error.API (ApiError.IllegalArgumentException msg.error_message)) ∧
    (msg.error = "Method Not Allowed" →
      Error.from_response (Except.ok msg) =
        Error.API (ApiError.MethodNotAllowed msg.error_message)) ∧
    (msg.error = "Not Found" →
      Error.from_response (Except.ok msg) =
        Error.API (ApiError.NotFound msg.error_message)) ∧
    (msg.error = "Unsupported Media Type" →
      Error.from_response (Except.ok msg) =
        Error.API (ApiError.UnsupportedMediaType msg.error_message)) ∧
    (msg.error ≠ "ForbiddenOperationException" →
      msg.error ≠ "IllegalArgumentException" →
      msg.error ≠ "Method Not Allowed" →
      msg.error ≠ "Not Found" →
      msg.error ≠ "Unsupported Media Type" →
      Error.from_response (Except.ok msg) =
        Error.API (ApiError.Unknown msg.error msg.error_message)) := by
  refine ⟨?_, ?_, ?_, ?_, ?_, ?_⟩
  · intro h; simp [Error.from_response, h]
  · intro h; simp [Error.from_response, h]
  · intro h; simp [Error.from_response, h]
  · intro h; simp [Error.from_response, h]
  · intro h; simp [Error.from_response, h]
  · intro h1 h2 h3 h4 h5; simp [Error.from_response, h1, h2, h3, h4, h5]

/-- Witness for C1 at the spec's two concrete envelopes. -/
theorem error_classifier_table_witness :
    Error.from_response
        (Except.ok ⟨"ForbiddenOperationException", "Invalid credentials.", none⟩) =
      Error.API (ApiError.ForbiddenOperationException "Invalid credentials.") ∧
    Error.from_response (Except.ok ⟨"SomeNewError", "x", none⟩) =
      Error.API (ApiError.Unknown "SomeNewError" "x") :=
  ⟨(error_classifier_table _).1 rfl,
   (error_classifier_table _).2.2.2.2.2 (by decide) (by decide) (by decide)
     (by decide) (by decide)⟩

/-- C5: for every non-success response whose body fails to parse as the
envelope shape, the result is the underlying `Reqwest` error, never an
`ApiError` (in particular never `Unknown`). -/
theorem error_envelope_parse_failure_propagates (e : ReqwestError) :
    Error.from_response (Except.error e) = Error.Reqwest e ∧
    ∀ a : ApiError, Error.from_response (Except.error e) ≠ Error.API a := by
  constructor
  · rfl
  · intro a h
    simp [Error.from_response, reqwestToError] at h

/-- C9: every builder constructed via `new()` with no `server()` or
`endpoint()` override dispatches to the default host
`https://authserver.mojang.com` joined with the endpoint's default path. -/
theorem default_dispatch_urls :
    (AuthenticateBuilder.new.server = DEFAULT_SERVER ∧
     AuthenticateBuilder.new.endpoint = "/authenticate" ∧
     AuthenticateBuilder.new.server.join AuthenticateBuilder.new.endpoint =
       Except.ok ⟨"https", "authserver.mojang.com", "/authenticate"⟩ ∧
     Url.render ⟨"https", "authserver.mojang.com", "/authenticate"⟩ =
       "https://authserver.mojang.com/authenticate") ∧
    (RefreshBuilder.new.server = DEFAULT_SERVER ∧
     RefreshBuilder.new.endpoint = "/refresh" ∧
     RefreshBuilder.new.server.join RefreshBuilder.new.endpoint =
       Except.ok ⟨"https", "authserver.mojang.com", "/refresh"⟩ ∧
     Url.render ⟨"https", "authserver.mojang.com", "/refresh"⟩ =
       "https://authserver.mojang.com/refresh") ∧
    (ValidateBuilder.new.server = DEFAULT_SERVER ∧
     ValidateBuilder.new.endpoint = "/validate" ∧
     ValidateBuilder.new.server.join ValidateBuilder.new.endpoint =
       Except.ok ⟨"https", "authserver.mojang.com", "/validate"⟩ ∧
     Url.render ⟨"https", "authserver.mojang.com", "/validate"⟩ =
       "https://authserver.mojang.com/validate") ∧
    (InvalidateBuilder.new.server = DEFAULT_SERVER ∧
     InvalidateBuilder.new.endpoint = "/invalidate" ∧
     InvalidateBuilder.new.server.join InvalidateBuilder.new.endpoint =
       Except.ok ⟨"https", "authserver.mojang.com", "/invalidate"⟩ ∧
     Url.render ⟨"https", "authserver.mojang.com", "/invalidate"⟩ =
       "https://authserver.mojang.com/invalidate") ∧
    (SignoutBuilder.new.server = DEFAULT_SERVER ∧
     SignoutBuilder.new.endpoint = "/signout" ∧
     SignoutBuilder.new.server.join SignoutBuilder.new.endpoint =
       Except.ok ⟨"https", "authserver.mojang.com", "/signout"⟩ ∧
     Url.render ⟨"https", "authserver.mojang.com", "/signout"⟩ =
       "https://authserver.mojang.com/signout") :=
  ⟨⟨rfl, rfl, rfl, rfl⟩, ⟨rfl, rfl, rfl, rfl⟩, ⟨rfl, rfl, rfl, rfl⟩,
   ⟨rfl, rfl, rfl, rfl⟩, ⟨rfl, rfl, rfl, rfl⟩⟩

/-- C7 counterexample: `server()` with a malformed URL string does fail at
configuration time leaving the builder unchanged, but the error produced is
the `Reqwest` kind (via `From<ReqwestError> for Error`), not the
`UrlParseError` kind the claim names; the two kinds are distinct. -/
theorem server_error_kind_counterexample :
    AuthenticateBuilder.new.set_server
        (Except.error { msg := "builder error for url (not a url)" }) =
      (AuthenticateBuilder.new,
       Except.error (Error.Reqwest { msg := "builder error for url (not a url)" })) ∧
    (Error.Reqwest { msg := "builder error for url (not a url)" }).isUrlParseError
      = false ∧
    (Error.UrlParseError { msg := "relative URL without a base" }).isUrlParseError
      = true :=
  ⟨rfl, rfl, rfl⟩

/-- C7 amended: for every builder, `server(url)` with a string that fails
the external URL conversion fails immediately at configuration time with the
`Reqwest` error kind (the conversion's `reqwest::Error` wrapped by
`From<ReqwestError> for Error`), never the `UrlParseError` kind, and leaves
the builder — in particular its stored base URL — unchanged. -/
theorem server_parse_failure_rejected (a : AuthenticateBuilder)
    (r : RefreshBuilder) (v : ValidateBuilder) (i : InvalidateBuilder)
    (s : SignoutBuilder) (e : ReqwestError) :
    a.set_server (Except.error e) = (a, Except.error (Error.Reqwest e)) ∧
    r.set_server (Except.error e) = (r, Except.error (Error.Reqwest e)) ∧
    v.set_server (Except.error e) = (v, Except.error (Error.Reqwest e)) ∧
    i.set_server (Except.error e) = (i, Except.error (Error.Reqwest e)) ∧
    s.set_server (Except.error e) = (s, Except.error (Error.Reqwest e)) ∧
    (Error.Reqwest e).isUrlParseError = false :=
  ⟨rfl, rfl, rfl, rfl, rfl, rfl⟩

/-- C2: for each of the five builders, `request()` with a required field
unset returns `MissingField` naming the first absent required field in the
documented order (authenticate and signout: `username` then `password`;
refresh, validate, invalidate: `access_token` then `client_token`), leaves
the builder unchanged, and performs no HTTP call (the list of calls is
empty). -/
theorem request_missing_field_order (a : AuthenticateBuilder)
    (s : SignoutBuilder) (r : RefreshBuilder) (v : ValidateBuilder)
    (i : InvalidateBuilder) (fresh : Uuid)
    (sa : Except ReqwestError (HttpReply AuthenticateResponse))
    (sr : Except ReqwestError (HttpReply RefreshResponse))
    (ss sv si : Except ReqwestError (HttpReply Unit)) :
    (a.params.username = none →
      a.request fresh sa = (a, [], Except.error (Error.MissingField "username"))) ∧
    (a.params.username.isSome = true → a.params.password = none →
      a.request fresh sa = (a, [], Except.error (Error.MissingField "password"))) ∧
    (s.params.username = none →
      s.request ss = (s, [], Except.error (Error.MissingField "username"))) ∧
    (s.params.username.isSome = true → s.params.password = none →
      s.request ss = (s, [], Except.error (Error.MissingField "password"))) ∧
    (r.params.access_token = none →
      r.request sr = (r, [], Except.error (Error.MissingField "access_token"))) ∧
    (r.params.access_token.isSome = true → r.params.client_token = none →
      r.request sr = (r, [], Except.error (Error.MissingField "client_token"))) ∧
    (v.params.access_token = none →
      v.request sv = (v, [], Except.error (Error.MissingField "access_token"))) ∧
    (v.params.access_token.isSome = true → v.params.client_token = none →
      v.request sv = (v, [], Except.error (Error.MissingField "client_token"))) ∧
    (i.params.access_token = none →
      i.request si = (i, [], Except.error (Error.MissingField "access_token"))) ∧
    (i.params.access_token.isSome = true → i.params.client_token = none →
      i.request si = (i, [], Except.error (Error.MissingField "client_token"))) := by
  refine ⟨?_, ?_, ?_, ?_, ?_, ?_, ?_, ?_, ?_, ?_⟩
  · intro h; simp [AuthenticateBuilder.request, h]
  · intro h1 h2
    obtain ⟨u, hu⟩ := Option.isSome_iff_exists.mp h1
    simp [AuthenticateBuilder.request, hu, h2]
  · intro h; simp [SignoutBuilder.request, h]
  · intro h1 h2
    obtain ⟨u, hu⟩ := Option.isSome_iff_exists.mp h1
    simp [SignoutBuilder.request, hu, h2]
  · intro h; simp [RefreshBuilder.request, h]
  · intro h1 h2
    obtain ⟨u, hu⟩ := Option.isSome_iff_exists.mp h1
    simp [RefreshBuilder.request, hu, h2]
  · intro h; simp [ValidateBuilder.request, h]
  · intro h1 h2
    obtain ⟨u, hu⟩ := Option.isSome_iff_exists.mp h1
    simp [ValidateBuilder.request, hu, h2]
  · intro h; simp [InvalidateBuilder.request, h]
  · intro h1 h2
    obtain ⟨u, hu⟩ := Option.isSome_iff_exists.mp h1
    simp [InvalidateBuilder.request, hu, h2]

/-- Witness for C2: fresh builders (all fields unset) and builders with only
the first required field set, at a concrete transport. -/
theorem request_missing_field_order_witness :
    AuthenticateBuilder.new.request ⟨3⟩ (Except.error ⟨"offline"⟩) =
      (AuthenticateBuilder.new, [], Except.error (Error.MissingField "username")) ∧
    (AuthenticateBuilder.new.username "U").request ⟨3⟩ (Except.error ⟨"offline"⟩) =
      (AuthenticateBuilder.new.username "U", [],
       Except.error (Error.MissingField "password")) ∧
    SignoutBuilder.new.request (Except.error ⟨"offline"⟩) =
      (SignoutBuilder.new, [], Except.error (Error.MissingField "username")) ∧
    RefreshBuilder.new.request (Except.error ⟨"offline"⟩) =
      (RefreshBuilder.new, [], Except.error (Error.MissingField "access_token")) ∧
    (RefreshBuilder.new.access_token "AT").request (Except.error ⟨"offline"⟩) =
      (RefreshBuilder.new.access_token "AT", [],
       Except.error (Error.MissingField "client_token")) ∧
    ValidateBuilder.new.request (Except.error ⟨"offline"⟩) =
      (ValidateBuilder.new, [], Except.error (Error.MissingField "access_token")) ∧
    InvalidateBuilder.new.request (Except.error ⟨"offline"⟩) =
      (InvalidateBuilder.new, [], Except.error (Error.MissingField "access_token")) := by
  have h1 := request_missing_field_order AuthenticateBuilder.new SignoutBuilder.new
    RefreshBuilder.new ValidateBuilder.new InvalidateBuilder.new ⟨3⟩
    (Except.error ⟨"offline"⟩) (Except.error ⟨"offline"⟩) (Except.error ⟨"offline"⟩)
    (Except.error ⟨"offline"⟩) (Except.error ⟨"offline"⟩)
  have h2 := request_missing_field_order (AuthenticateBuilder.new.username "U")
    SignoutBuilder.new (RefreshBuilder.new.access_token "AT") ValidateBuilder.new
    InvalidateBuilder.new ⟨3⟩ (Except.error ⟨"offline"⟩) (Except.error ⟨"offline"⟩)
    (Except.error ⟨"offline"⟩) (Except.error ⟨"offline"⟩) (Except.error ⟨"offline"⟩)
  exact ⟨h1.1 rfl, h2.2.1 rfl rfl, h1.2.2.1 rfl, h1.2.2.2.2.1 rfl,
    h2.2.2.2.2.2.1 rfl rfl, h1.2.2.2.2.2.2.1 rfl, h1.2.2.2.2.2.2.2.2.1 rfl⟩

/-- C4: for the Refresh, Validate and Invalidate builders with
`access_token` set, `request()` with `client_token` unset returns
`MissingField("client_token")`, performs no HTTP call (so no payload is
serialized), and leaves the builder unchanged — in particular `client_token`
stays unset: no token is auto-generated. -/
theorem no_token_generation_for_session_endpoints (r : RefreshBuilder)
    (v : ValidateBuilder) (i : InvalidateBuilder)
    (sr : Except ReqwestError (HttpReply RefreshResponse))
    (sv si : Except ReqwestError (HttpReply Unit))
    (har : r.params.access_token.isSome = true) (hcr : r.params.client_token = none)
    (hav : v.params.access_token.isSome = true) (hcv : v.params.client_token = none)
    (hai : i.params.access_token.isSome = true) (hci : i.params.client_token = none) :
    r.request sr = (r, [], Except.error (Error.MissingField "client_token")) ∧
    (r.request sr).1.params.client_token = none ∧
    v.request sv = (v, [], Except.error (Error.MissingField "client_token")) ∧
    (v.request sv).1.params.client_token = none ∧
    i.request si = (i, [], Except.error (Error.MissingField "client_token")) ∧
    (i.request si).1.params.client_token = none := by
  obtain ⟨tr, htr⟩ := Option.isSome_iff_exists.mp har
  obtain ⟨tv, htv⟩ := Option.isSome_iff_exists.mp hav
  obtain ⟨ti, hti⟩ := Option.isSome_iff_exists.mp hai
  have hr : r.request sr = (r, [], Except.error (Error.MissingField "client_token")) := by
    simp [RefreshBuilder.request, htr, hcr]
  have hv : v.request sv = (v, [], Except.error (Error.MissingField "client_token")) := by
    simp [ValidateBuilder.request, htv, hcv]
  have hi : i.request si = (i, [], Except.error (Error.MissingField "client_token")) := by
    simp [InvalidateBuilder.request, hti, hci]
  exact ⟨hr, by rw [hr]; exact hcr, hv, by rw [hv]; exact hcv,
    hi, by rw [hi]; exact hci⟩

/-- Witness for C4 at concrete builders with only `access_token` set. -/
theorem no_token_generation_witness :
    (RefreshBuilder.new.access_token "AT").request (Except.error ⟨"offline"⟩) =
      (RefreshBuilder.new.access_token "AT", [],
       Except.error (Error.MissingField "client_token")) ∧
    (ValidateBuilder.new.access_token "AT").request (Except.error ⟨"offline"⟩) =
      (ValidateBuilder.new.access_token "AT", [],
       Except.error (Error.MissingField "client_token")) ∧
    (InvalidateBuilder.new.access_token "AT").request (Except.error ⟨"offline"⟩) =
      (InvalidateBuilder.new.access_token "AT", [],
       Except.error (Error.MissingField "client_token")) := by
  have h := no_token_generation_for_session_endpoints
    (RefreshBuilder.new.access_token "AT") (ValidateBuilder.new.access_token "AT")
    (InvalidateBuilder.new.access_token "AT") (Except.error ⟨"offline"⟩)
    (Except.error ⟨"offline"⟩) (Except.error ⟨"offline"⟩)
    rfl rfl rfl rfl rfl rfl
  exact ⟨h.1, h.2.2.1, h.2.2.2.2.1⟩

/-! ## Shared computation lemmas -/

theorem authParams_lookup_clientToken (p : AuthenticateParams) :
    p.serialize.lookup "clientToken" = some (serOptUuid p.client_token) := by
  simp [AuthenticateParams.serialize, Json.lookup, List.lookup]

theorem refreshParams_lookup_clientToken (p : RefreshParams) :
    p.serialize.lookup "clientToken" = some (serOptUuid p.client_token) := by
  simp [RefreshParams.serialize, Json.lookup, List.lookup]

theorem validateParams_lookup_clientToken (p : ValidateParams) :
    p.serialize.lookup "clientToken" = some (serOptUuid p.client_token) := by
  simp [ValidateParams.serialize, Json.lookup, List.lookup]

theorem invalidateParams_lookup_clientToken (p : InvalidateParams) :
    p.serialize.lookup "clientToken" = some (serOptUuid p.client_token) := by
  simp [InvalidateParams.serialize, Json.lookup, List.lookup]

theorem authRequest_eq (b : AuthenticateBuilder) (fresh : Uuid)
    (send : Except ReqwestError (HttpReply AuthenticateResponse)) (u p : String)
    (hu : b.params.username = some u) (hp : b.params.password = some p) :
    b.request fresh send =
      ({ b with params :=
          { b.params with client_token := some (b.params.client_token.getD fresh) } },
       [⟨b.server.joinResolve b.endpoint,
         AuthenticateParams.serialize
           { b.params with client_token := some (b.params.client_token.getD fresh) }⟩],
       match send with
       | .error e => Except.error (Error.Reqwest e)
       | .ok reply =>
         if reply.status = 200 then
           match reply.okBody with
           | .ok r => Except.ok r
           | .error e => Except.error (Error.Reqwest e)
         else Except.error (Error.from_response reply.errBody)) := by
  obtain ⟨⟨pu, pp, pct, pru, pag⟩, srv, ep⟩ := b
  dsimp only at hu hp ⊢
  subst hu hp
  cases pct with
  | none =>
    rcases send with e | ⟨st, okB, errB⟩
    · simp [AuthenticateBuilder.request, Url.join, reqwestToError]
    · by_cases hst : st = 200 <;> cases okB <;>
        simp [AuthenticateBuilder.request, Url.join, hst, reqwestToError]
  | some t =>
    rcases send with e | ⟨st, okB, errB⟩
    · simp [AuthenticateBuilder.request, Url.join, reqwestToError]
    · by_cases hst : st = 200 <;> cases okB <;>
        simp [AuthenticateBuilder.request, Url.join, hst, reqwestToError]

theorem refreshRequest_eq (b : RefreshBuilder)
    (send : Except ReqwestError (HttpReply RefreshResponse)) (a : String) (t : Uuid)
    (ha : b.params.access_token = some a) (ht : b.params.client_token = some t) :
    b.request send =
      (b,
       [⟨b.server.joinResolve b.endpoint, b.params.serialize⟩],
       match send with
       | .error e => Except.error (Error.Reqwest e)
       | .ok reply =>
         if reply.status = 200 then
           match reply.okBody with
           | .ok r => Except.ok r
           | .error e => Except.error (Error.Reqwest e)
         else Except.error (Error.from_response reply.errBody)) := by
  obtain ⟨⟨pa, pct, pru⟩, srv, ep⟩ := b
  dsimp only at ha ht ⊢
  subst ha ht
  rcases send with e | ⟨st, okB, errB⟩
  · simp [RefreshBuilder.request, Url.join, reqwestToError]
  · by_cases hst : st = 200 <;> cases okB <;>
      simp [RefreshBuilder.request, Url.join, hst, reqwestToError]

theorem validateRequest_eq (b : ValidateBuilder)
    (send : Except ReqwestError (HttpReply Unit)) (a : String) (t : Uuid)
    (ha : b.params.access_token = some a) (ht : b.params.client_token = some t) :
    b.request send =
      (b,
       [⟨b.server.joinResolve b.endpoint, b.params.serialize⟩],
       match send with
       | .error e => Except.error (Error.Reqwest e)
       | .ok reply =>
         if reply.status = 204 then Except.ok ()
         else Except.error (Error.from_response reply.errBody)) := by
  obtain ⟨⟨pa, pct⟩, srv, ep⟩ := b
  dsimp only at ha ht ⊢
  subst ha ht
  rcases send with e | ⟨st, okB, errB⟩
  · simp [ValidateBuilder.request, Url.join, reqwestToError]
  · by_cases hst : st = 204 <;>
      simp [ValidateBuilder.request, Url.join, hst, reqwestToError]

theorem invalidateRequest_eq (b : InvalidateBuilder)
    (send : Except ReqwestError (HttpReply Unit)) (a : String) (t : Uuid)
    (ha : b.params.access_token = some a) (ht : b.params.client_token = some t) :
    b.request send =
      (b,
       [⟨b.server.joinResolve b.endpoint, b.params.serialize⟩],
       match send with
       | .error e => Except.error (Error.Reqwest e)
       | .ok reply =>
         if reply.status = 204 then Except.ok ()
         else Except.error (Error.from_response reply.errBody)) := by
  obtain ⟨⟨pa, pct⟩, srv, ep⟩ := b
  dsimp only at ha ht ⊢
  subst ha ht
  rcases send with e | ⟨st, okB, errB⟩
  · simp [InvalidateBuilder.request, Url.join, reqwestToError]
  · by_cases hst : st = 204 <;>
      simp [InvalidateBuilder.request, Url.join, hst, reqwestToError]

theorem signoutRequest_eq (b : SignoutBuilder)
    (send : Except ReqwestError (HttpReply Unit)) (u p : String)
    (hu : b.params.username = some u) (hp : b.params.password = some p) :
    b.request send =
      (b,
       [⟨b.server.joinResolve b.endpoint, b.params.serialize⟩],
       match send with
       | .error e => Except.error (Error.Reqwest e)
       | .ok reply =>
         if reply.status = 204 then Except.ok ()
         else Except.error (Error.from_response reply.errBody)) := by
  obtain ⟨⟨pu, pp⟩, srv, ep⟩ := b
  dsimp only at hu hp ⊢
  subst hu hp
  rcases send with e | ⟨st, okB, errB⟩
  · simp [SignoutBuilder.request, Url.join, reqwestToError]
  · by_cases hst : st = 204 <;>
      simp [SignoutBuilder.request, Url.join, hst, reqwestToError]

/-- C3: for the Authenticate builder with `username` and `password` set, the
serialized request body carries in its `clientToken` field the freshly
generated UUID when `client_token` was unset, and exactly the caller's
token when it was set; the generated value is a valid hyphenated UUID. -/
theorem authenticate_client_token_on_wire (b : AuthenticateBuilder)
    (fresh : Uuid) (send : Except ReqwestError (HttpReply AuthenticateResponse))
    (hu : b.params.username.isSome = true) (hp : b.params.password.isSome = true) :
    (b.params.client_token = none →
      ((b.request fresh send).2.1.map fun c => c.payload.lookup "clientToken") =
        [some (Json.str fresh.toHyphenated)]) ∧
    (∀ t, b.params.client_token = some t →
      ((b.request fresh send).2.1.map fun c => c.payload.lookup "clientToken") =
        [some (Json.str t.toHyphenated)]) ∧
    isHyphenatedUuidString fresh.toHyphenated = true := by
  obtain ⟨u, hu'⟩ := Option.isSome_iff_exists.mp hu
  obtain ⟨p, hp'⟩ := Option.isSome_iff_exists.mp hp
  rw [authRequest_eq b fresh send u p hu' hp']
  refine ⟨?_, ?_, toHyphenated_valid fresh⟩
  · intro hn
    simp [hn, authParams_lookup_clientToken, serOptUuid, serUuid]
  · intro t ht
    simp [ht, authParams_lookup_clientToken, serOptUuid, serUuid]

/-- Witness for C3 at a concrete builder, generator output and transport. -/
theorem authenticate_client_token_on_wire_witness :
    (((AuthenticateBuilder.new.username "U").password "P").request ⟨5⟩
          (Except.error ⟨"offline"⟩)).2.1.map
        (fun c => c.payload.lookup "clientToken") =
      [some (Json.str (Uuid.mk 5).toHyphenated)] ∧
    ((((AuthenticateBuilder.new.username "U").password "P").client_token ⟨9⟩).request
          ⟨5⟩ (Except.error ⟨"offline"⟩)).2.1.map
        (fun c => c.payload.lookup "clientToken") =
      [some (Json.str (Uuid.mk 9).toHyphenated)] ∧
    isHyphenatedUuidString (Uuid.mk 5).toHyphenated = true :=
  ⟨(authenticate_client_token_on_wire ((AuthenticateBuilder.new.username "U").password "P")
      ⟨5⟩ (Except.error ⟨"offline"⟩) rfl rfl).1 rfl,
   (authenticate_client_token_on_wire
      (((AuthenticateBuilder.new.username "U").password "P").client_token ⟨9⟩)
      ⟨5⟩ (Except.error ⟨"offline"⟩) rfl rfl).2.1 ⟨9⟩ rfl,
   (authenticate_client_token_on_wire ((AuthenticateBuilder.new.username "U").password "P")
      ⟨5⟩ (Except.error ⟨"offline"⟩) rfl rfl).2.2⟩

/-- C10: `request()` on an Authenticate builder with `username` and
`password` set mutates only the builder's `client_token`: when it was absent
it becomes the freshly generated UUID (and a second `request()` on the same
builder reuses exactly that token on the wire instead of generating again);
when it was `some t` it stays `some t`; username, password, request_user,
agent, server and endpoint are unchanged. -/
theorem authenticate_request_frame (b : AuthenticateBuilder)
    (fresh fresh2 : Uuid)
    (send send2 : Except ReqwestError (HttpReply AuthenticateResponse))
    (hu : b.params.username.isSome = true) (hp : b.params.password.isSome = true) :
    ((b.request fresh send).1.params.username = b.params.username ∧
     (b.request fresh send).1.params.password = b.params.password ∧
     (b.request fresh send).1.params.request_user = b.params.request_user ∧
     (b.request fresh send).1.params.agent = b.params.agent ∧
     (b.request fresh send).1.server = b.server ∧
     (b.request fresh send).1.endpoint = b.endpoint) ∧
    (b.params.client_token = none →
      (b.request fresh send).1.params.client_token = some fresh) ∧
    (∀ t, b.params.client_token = some t →
      (b.request fresh send).1.params.client_token = some t) ∧
    ((b.request fresh send).1.request fresh2 send2).1.params.client_token =
      some (b.params.client_token.getD fresh) ∧
    (((b.request fresh send).1.request fresh2 send2).2.1.map
        fun c => c.payload.lookup "clientToken") =
      [some (Json.str (b.params.client_token.getD fresh).toHyphenated)] := by
  obtain ⟨u, hu'⟩ := Option.isSome_iff_exists.mp hu
  obtain ⟨p, hp'⟩ := Option.isSome_iff_exists.mp hp
  have h1 := authRequest_eq b fresh send u p hu' hp'
  have hu1 : (b.request fresh send).1.params.username = some u := by
    rw [h1]; exact hu'
  have hp1 : (b.request fresh send).1.params.password = some p := by
    rw [h1]; exact hp'
  have hct1 : (b.request fresh send).1.params.client_token =
      some (b.params.client_token.getD fresh) := by
    rw [h1]
  have h2 := authRequest_eq (b.request fresh send).1 fresh2 send2
    u p hu1 hp1
  refine ⟨⟨?_, ?_, ?_, ?_, ?_, ?_⟩, ?_, ?_, ?_, ?_⟩
  · rw [h1]
  · rw [h1]
  · rw [h1]
  · rw [h1]
  · rw [h1]
  · rw [h1]
  · intro hn; rw [h1]; simp [hn]
  · intro t ht; rw [h1]; simp [ht]
  · rw [h2, hct1]; simp
  · rw [h2]
    simp [authParams_lookup_clientToken, serOptUuid, serUuid, hct1]

/-- Witness for C10 at a concrete builder: the token generated by the first
`request()` is stored and reused by the second. -/
theorem authenticate_request_frame_witness :
    ((((AuthenticateBuilder.new.username "U").password "P").request ⟨5⟩
        (Except.error ⟨"offline"⟩)).1.params.username = some "U" ∧
     ((((AuthenticateBuilder.new.username "U").password "P").request ⟨5⟩
        (Except.error ⟨"offline"⟩)).1.request ⟨6⟩
          (Except.error ⟨"offline"⟩)).1.params.client_token = some ⟨5⟩ ∧
     (((((AuthenticateBuilder.new.username "U").password "P").request ⟨5⟩
        (Except.error ⟨"offline"⟩)).1.request ⟨6⟩
          (Except.error ⟨"offline"⟩)).2.1.map
        fun c => c.payload.lookup "clientToken") =
      [some (Json.str (Uuid.mk 5).toHyphenated)]) := by
  have h := authenticate_request_frame
    ((AuthenticateBuilder.new.username "U").password "P") ⟨5⟩ ⟨6⟩
    (Except.error ⟨"offline"⟩) (Except.error ⟨"offline"⟩) rfl rfl
  have h1 : ((AuthenticateBuilder.new.username "U").password "P").params.username
      = some "U" := rfl
  exact ⟨h.1.1.trans h1, h.2.2.2.1, h.2.2.2.2⟩

/-- C6: each endpoint interprets the response against exactly one success
status: 200 for authenticate and refresh (body parsed into the typed
response, a body-parse failure surfacing as the `Reqwest` error), 204 for
validate, invalidate and signout (body discarded, `Ok(())`); any other
status classifies the body as an `ErrorMessage` envelope via
`Error::from_response`. -/
theorem status_code_interpretation (a : AuthenticateBuilder)
    (r : RefreshBuilder) (v : ValidateBuilder) (i : InvalidateBuilder)
    (s : SignoutBuilder) (fresh : Uuid)
    (ra : HttpReply AuthenticateResponse) (rr : HttpReply RefreshResponse)
    (rv ri rs : HttpReply Unit)
    (hau : a.params.username.isSome = true) (hap : a.params.password.isSome = true)
    (hra : r.params.access_token.isSome = true)
    (hrc : r.params.client_token.isSome = true)
    (hva : v.params.access_token.isSome = true)
    (hvc : v.params.client_token.isSome = true)
    (hia : i.params.access_token.isSome = true)
    (hic : i.params.client_token.isSome = true)
    (hsu : s.params.username.isSome = true) (hsp : s.params.password.isSome = true) :
    ((ra.status = 200 → (a.request fresh (Except.ok ra)).2.2 =
        match ra.okBody with
        | .ok x => Except.ok x
        | .error e => Except.error (Error.Reqwest e)) ∧
     (ra.status ≠ 200 → (a.request fresh (Except.ok ra)).2.2 =
        Except.error (Error.from_response ra.errBody))) ∧
    ((rr.status = 200 → (r.request (Except.ok rr)).2.2 =
        match rr.okBody with
        | .ok x => Except.ok x
        | .error e => Except.error (Error.Reqwest e)) ∧
     (rr.status ≠ 200 → (r.request (Except.ok rr)).2.2 =
        Except.error (Error.from_response rr.errBody))) ∧
    ((rv.status = 204 → (v.request (Except.ok rv)).2.2 = Except.ok ()) ∧
     (rv.status ≠ 204 → (v.request (Except.ok rv)).2.2 =
        Except.error (Error.from_response rv.errBody))) ∧
    ((ri.status = 204 → (i.request (Except.ok ri)).2.2 = Except.ok ()) ∧
     (ri.status ≠ 204 → (i.request (Except.ok ri)).2.2 =
        Except.error (Error.from_response ri.errBody))) ∧
    ((rs.status = 204 → (s.request (Except.ok rs)).2.2 = Except.ok ()) ∧
     (rs.status ≠ 204 → (s.request (Except.ok rs)).2.2 =
        Except.error (Error.from_response rs.errBody))) := by
  obtain ⟨u, hu'⟩ := Option.isSome_iff_exists.mp hau
  obtain ⟨p, hp'⟩ := Option.isSome_iff_exists.mp hap
  obtain ⟨ar, har'⟩ := Option.isSome_iff_exists.mp hra
  obtain ⟨tr, htr'⟩ := Option.isSome_iff_exists.mp hrc
  obtain ⟨av, hav'⟩ := Option.isSome_iff_exists.mp hva
  obtain ⟨tv, htv'⟩ := Option.isSome_iff_exists.mp hvc
  obtain ⟨ai, hai'⟩ := Option.isSome_iff_exists.mp hia
  obtain ⟨ti, hti'⟩ := Option.isSome_iff_exists.mp hic
  obtain ⟨us, hus'⟩ := Option.isSome_iff_exists.mp hsu
  obtain ⟨ps, hps'⟩ := Option.isSome_iff_exists.mp hsp
  rw [authRequest_eq a fresh (Except.ok ra) u p hu' hp',
    refreshRequest_eq r (Except.ok rr) ar tr har' htr',
    validateRequest_eq v (Except.ok rv) av tv hav' htv',
    invalidateRequest_eq i (Except.ok ri) ai ti hai' hti',
    signoutRequest_eq s (Except.ok rs) us ps hus' hps']
  refine ⟨⟨?_, ?_⟩, ⟨?_, ?_⟩, ⟨?_, ?_⟩, ⟨?_, ?_⟩, ⟨?_, ?_⟩⟩ <;>
    intro h <;> simp [h]

/-- Witness for C6: concrete replies at each endpoint, one success and two
non-success statuses among them. -/
theorem status_code_interpretation_witness :
    (((AuthenticateBuilder.new.username "U").password "P").request ⟨5⟩
        (Except.ok ⟨200, Except.ok ⟨"NEW", ⟨1⟩, [], none, none⟩,
          Except.error ⟨"not an envelope"⟩⟩)).2.2 =
      Except.ok ⟨"NEW", ⟨1⟩, [], none, none⟩ ∧
    (((RefreshBuilder.new.access_token "AT").client_token ⟨2⟩).request
        (Except.ok ⟨403, Except.error ⟨"parse"⟩,
          Except.ok ⟨"ForbiddenOperationException", "Invalid token", none⟩⟩)).2.2 =
      Except.error (Error.API (ApiError.ForbiddenOperationException "Invalid token")) ∧
    (((ValidateBuilder.new.access_token "AT").client_token ⟨2⟩).request
        (Except.ok ⟨204, Except.ok (), Except.error ⟨"empty"⟩⟩)).2.2 =
      Except.ok () ∧
    (((InvalidateBuilder.new.access_token "AT").client_token ⟨2⟩).request
        (Except.ok ⟨204, Except.ok (), Except.error ⟨"empty"⟩⟩)).2.2 =
      Except.ok () ∧
    (((SignoutBuilder.new.username "U").password "P").request
        (Except.ok ⟨500, Except.ok (),
          Except.ok ⟨"SomeNewError", "w", none⟩⟩)).2.2 =
      Except.error (Error.API (ApiError.Unknown "SomeNewError" "w")) := by
  have h := status_code_interpretation
    ((AuthenticateBuilder.new.username "U").password "P")
    ((RefreshBuilder.new.access_token "AT").client_token ⟨2⟩)
    ((ValidateBuilder.new.access_token "AT").client_token ⟨2⟩)
    ((InvalidateBuilder.new.access_token "AT").client_token ⟨2⟩)
    ((SignoutBuilder.new.username "U").password "P") ⟨5⟩
    ⟨200, Except.ok ⟨"NEW", ⟨1⟩, [], none, none⟩, Except.error ⟨"not an envelope"⟩⟩
    ⟨403, Except.error ⟨"parse"⟩,
      Except.ok ⟨"ForbiddenOperationException", "Invalid token", none⟩⟩
    ⟨204, Except.ok (), Except.error ⟨"empty"⟩⟩
    ⟨204, Except.ok (), Except.error ⟨"empty"⟩⟩
    ⟨500, Except.ok (), Except.ok ⟨"SomeNewError", "w", none⟩⟩
    rfl rfl rfl rfl rfl rfl rfl rfl rfl rfl
  refine ⟨h.1.1 rfl, ?_, h.2.2.1.1 rfl, h.2.2.2.1.1 rfl, ?_⟩
  · rw [h.2.1.2 (by decide)]
    simp [Error.from_response]
  · rw [h.2.2.2.2.2 (by decide)]
    simp [Error.from_response]

/-- C8: every dispatched request that carries a client token renders it in
the wire JSON as a standard hyphenated UUID string under the camelCase field
name `clientToken`; the unhyphenated "simple" form (which
`serialize_uuid_simple` would produce) never appears, the two renderings
being distinct for every token. -/
theorem client_token_hyphenated_on_wire (a : AuthenticateBuilder)
    (r : RefreshBuilder) (v : ValidateBuilder) (i : InvalidateBuilder)
    (fresh t : Uuid)
    (sa : Except ReqwestError (HttpReply AuthenticateResponse))
    (sr : Except ReqwestError (HttpReply RefreshResponse))
    (sv si : Except ReqwestError (HttpReply Unit))
    (hau : a.params.username.isSome = true) (hap : a.params.password.isSome = true)
    (hra : r.params.access_token.isSome = true)
    (hva : v.params.access_token.isSome = true)
    (hia : i.params.access_token.isSome = true) :
    (((a.request fresh sa).2.1.map fun c => c.payload.lookup "clientToken") =
        [some (Json.str (a.params.client_token.getD fresh).toHyphenated)] ∧
     isHyphenatedUuidString (a.params.client_token.getD fresh).toHyphenated = true) ∧
    (r.params.client_token = some t →
      ((r.request sr).2.1.map fun c => c.payload.lookup "clientToken") =
        [some (Json.str t.toHyphenated)]) ∧
    (v.params.client_token = some t →
      ((v.request sv).2.1.map fun c => c.payload.lookup "clientToken") =
        [some (Json.str t.toHyphenated)]) ∧
    (i.params.client_token = some t →
      ((i.request si).2.1.map fun c => c.payload.lookup "clientToken") =
        [some (Json.str t.toHyphenated)]) ∧
    isHyphenatedUuidString t.toHyphenated = true ∧
    serialize_uuid_simple t ≠ serUuid t := by
  obtain ⟨u, hu'⟩ := Option.isSome_iff_exists.mp hau
  obtain ⟨p, hp'⟩ := Option.isSome_iff_exists.mp hap
  obtain ⟨ar, har'⟩ := Option.isSome_iff_exists.mp hra
  obtain ⟨av, hav'⟩ := Option.isSome_iff_exists.mp hva
  obtain ⟨ai, hai'⟩ := Option.isSome_iff_exists.mp hia
  refine ⟨⟨?_, toHyphenated_valid _⟩, ?_, ?_, ?_, toHyphenated_valid t, ?_⟩
  · rw [authRequest_eq a fresh sa u p hu' hp']
    simp [authParams_lookup_clientToken, serOptUuid, serUuid]
  · intro ht
    rw [refreshRequest_eq r sr ar t har' ht]
    simp [refreshParams_lookup_clientToken, ht, serOptUuid, serUuid]
  · intro ht
    rw [validateRequest_eq v sv av t hav' ht]
    simp [validateParams_lookup_clientToken, ht, serOptUuid, serUuid]
  · intro ht
    rw [invalidateRequest_eq i si ai t hai' ht]
    simp [invalidateParams_lookup_clientToken, ht, serOptUuid, serUuid]
  · intro h
    exact toHyphenated_ne_toSimple t (Json.str.inj h).symm

/-- Witness for C8 at concrete builders and tokens. -/
theorem client_token_hyphenated_on_wire_witness :
    ((((AuthenticateBuilder.new.username "U").password "P").request ⟨5⟩
          (Except.error ⟨"offline"⟩)).2.1.map
        (fun c => c.payload.lookup "clientToken") =
      [some (Json.str (Uuid.mk 5).toHyphenated)] ∧
     isHyphenatedUuidString (Uuid.mk 5).toHyphenated = true) ∧
    ((((RefreshBuilder.new.access_token "AT").client_token ⟨9⟩).request
          (Except.error ⟨"offline"⟩)).2.1.map
        (fun c => c.payload.lookup "clientToken") =
      [some (Json.str (Uuid.mk 9).toHyphenated)]) ∧
    ((((ValidateBuilder.new.access_token "AT").client_token ⟨9⟩).request
          (Except.error ⟨"offline"⟩)).2.1.map
        (fun c => c.payload.lookup "clientToken") =
      [some (Json.str (Uuid.mk 9).toHyphenated)]) ∧
    ((((InvalidateBuilder.new.access_token "AT").client_token ⟨9⟩).request
          (Except.error ⟨"offline"⟩)).2.1.map
        (fun c => c.payload.lookup "clientToken") =
      [some (Json.str (Uuid.mk 9).toHyphenated)]) ∧
    serialize_uuid_simple ⟨9⟩ ≠ serUuid ⟨9⟩ := by
  have h := client_token_hyphenated_on_wire
    ((AuthenticateBuilder.new.username "U").password "P")
    ((RefreshBuilder.new.access_token "AT").client_token ⟨9⟩)
    ((ValidateBuilder.new.access_token "AT").client_token ⟨9⟩)
    ((InvalidateBuilder.new.access_token "AT").client_token ⟨9⟩)
    ⟨5⟩ ⟨9⟩ (Except.error ⟨"offline"⟩) (Except.error ⟨"offline"⟩)
    (Except.error ⟨"offline"⟩) (Except.error ⟨"offline"⟩)
    rfl rfl rfl rfl rfl
  exact ⟨h.1, h.2.1 rfl, h.2.2.1 rfl, h.2.2.2.1 rfl, h.2.2.2.2.2⟩
